import Mathlib

/-!
# Verification development for the MIME registry adapter and the network menu button

* `webkit/glue/simple_webmimeregistry_impl.cc`: the MIME registry adapter
  (`ToASCIIOrEmpty`, the `supports*MIMEType` queries).
* `chrome/browser/chromeos/status/network_menu_button.cc`: the network status
  button (`InitMenuItems`, `RunMenu`, `NetworkChanged`, `AnimationProgressed`,
  `IconForNetworkStrength`).
* `content/public/test/browser_test_utils.h` only declares test helpers and has
  no body to embed.

Strings are lists of code units carried as natural numbers: a `string16` holds
16-bit units, a `StdString` holds 8-bit units.  Functions of the `net::` MIME
library, the localisation tables, the generated resource identifiers and the
flag constants of the class declaration are not part of these files; they are
parameters of the model (`MimeUtil`, `Platform`).
-/

/-! ## Part 1: definitions for `simple_webmimeregistry_impl.cc` -/

/-- A `std::string`: the sequence of its bytes, each as an unsigned value. -/
abbrev StdString := List Nat

/-- A `string16`: the sequence of its UTF-16 code units. -/
abbrev string16 := List Nat

/-- A `WebKit::WebString`: either the null string or a sequence of UTF-16 code units. -/
inductive WebString where
  | null
  | str (units : string16)
deriving DecidableEq, Repr

namespace WebString

/-- The method `WebString::isNull()`. -/
def isNull : WebString → Bool
  | null => true
  | str _ => false

/-- The conversion `operator string16()`: a null string converts to the empty string. -/
def toString16 : WebString → string16
  | null => []
  | str units => units

end WebString

/-- Modelled from the spec: `IsStringASCII` of `base/string_util.h` is not among the
source files. A string is ASCII when no code unit exceeds `0x7F` ("a non-ASCII string"
is one with a code unit above that). -/
def IsStringASCII (s : string16) : Bool := s.all (fun c => decide (c ≤ 0x7F))

/-- Modelled from the spec: `UTF16ToASCII` of `base/utf_string_conversions.h` is not among
the source files. "Convert a WebString to ASCII": every 16-bit unit is narrowed to one
byte. -/
def UTF16ToASCII (s : string16) : StdString := s.map (fun c => c % 256)

/-- The helper `ToASCIIOrEmpty` (lines 19-23):
`IsStringASCII(string) ? UTF16ToASCII(string) : std::string()`. -/
def ToASCIIOrEmpty (s : WebString) : StdString :=
  if IsStringASCII s.toString16 then UTF16ToASCII s.toString16 else []

/-- The value of `std::string(s.c_str())`: passing `s.c_str()` where a
`const std::string&` is expected rebuilds the string from the C string, which ends at
the first NUL byte. -/
def c_str (s : StdString) : StdString := s.takeWhile (fun c => c != 0)

/-- The enumeration `WebMimeRegistry::SupportsType`. -/
inductive SupportsType where
  | IsNotSupported
  | IsSupported
  | MayBeSupported
deriving DecidableEq, Repr

/-- The functions of `net/base/mime_util.h` that the adapter wraps. They are not among
the source files and are taken as parameters. -/
structure MimeUtil where
  /-- The predicate `net::IsSupportedMimeType`. -/
  IsSupportedMimeType : StdString → Bool
  /-- The predicate `net::IsSupportedImageMimeType`. -/
  IsSupportedImageMimeType : StdString → Bool
  /-- The predicate `net::IsSupportedJavascriptMimeType`. -/
  IsSupportedJavascriptMimeType : StdString → Bool
  /-- The predicate `net::IsSupportedNonImageMimeType`. -/
  IsSupportedNonImageMimeType : StdString → Bool
  /-- The predicate `net::IsSupportedMediaMimeType`. -/
  IsSupportedMediaMimeType : StdString → Bool
  /-- The predicate `net::IsStrictMediaMimeType`. -/
  IsStrictMediaMimeType : StdString → Bool
  /-- The function `net::ParseCodecString(codecs, &out, strip)`, returning `out`. -/
  ParseCodecString : StdString → Bool → List StdString
  /-- The predicate `net::IsSupportedStrictMediaMimeType(mime_type, codecs)`. -/
  IsSupportedStrictMediaMimeType : StdString → List StdString → Bool
  /-- The predicate `net::AreSupportedMediaCodecs(codecs)`. -/
  AreSupportedMediaCodecs : List StdString → Bool

namespace webkit_glue

open SupportsType

/-- The method `SimpleWebMimeRegistryImpl::supportsMIMEType` (lines 29-33). -/
def supportsMIMEType (net : MimeUtil) (mime_type : WebString) : SupportsType :=
  if net.IsSupportedMimeType (ToASCIIOrEmpty mime_type) then IsSupported else IsNotSupported

/-- The method `SimpleWebMimeRegistryImpl::supportsImageMIMEType` (lines 35-39). -/
def supportsImageMIMEType (net : MimeUtil) (mime_type : WebString) : SupportsType :=
  if net.IsSupportedImageMimeType (ToASCIIOrEmpty mime_type) then IsSupported
  else IsNotSupported

/-- The method `SimpleWebMimeRegistryImpl::supportsJavaScriptMIMEType` (lines 41-46). -/
def supportsJavaScriptMIMEType (net : MimeUtil) (mime_type : WebString) : SupportsType :=
  if net.IsSupportedJavascriptMimeType (ToASCIIOrEmpty mime_type) then IsSupported
  else IsNotSupported

/-- The method `SimpleWebMimeRegistryImpl::supportsMediaMIMEType` (lines 48-81). -/
def supportsMediaMIMEType (net : MimeUtil) (mime_type codecs : WebString) : SupportsType :=
  -- Not supporting the container is a flat-out no.
  if !net.IsSupportedMediaMimeType (ToASCIIOrEmpty mime_type) then IsNotSupported
  -- Check list of strict codecs to see if it is supported.
  else if net.IsStrictMediaMimeType (ToASCIIOrEmpty mime_type) then
    -- We support the container, but no codecs were specified.
    if codecs.isNull then MayBeSupported
    else
      let strict_codecs := net.ParseCodecString (c_str (ToASCIIOrEmpty codecs)) false
      if !net.IsSupportedStrictMediaMimeType (ToASCIIOrEmpty mime_type) strict_codecs then
        IsNotSupported
      else IsSupported
  else
    -- If we don't recognize the codec, it's possible we support it.
    let parsed_codecs := net.ParseCodecString (c_str (ToASCIIOrEmpty codecs)) true
    if !net.AreSupportedMediaCodecs parsed_codecs then MayBeSupported
    else IsSupported

/-- The method `SimpleWebMimeRegistryImpl::supportsNonImageMIMEType` (lines 83-88). -/
def supportsNonImageMIMEType (net : MimeUtil) (mime_type : WebString) : SupportsType :=
  if net.IsSupportedNonImageMimeType (ToASCIIOrEmpty mime_type) then IsSupported
  else IsNotSupported

end webkit_glue

/-! ### A small MIME library used to evaluate the adapter on concrete inputs -/

/-- The bytes of an ASCII literal. -/
def bytes (s : String) : StdString := s.toList.map Char.toNat

/-- The code units of an ASCII literal, as a non-null `WebString`. -/
def web (s : String) : WebString := WebString.str (s.toList.map Char.toNat)

/-- Splitting a byte string at commas, used by `sampleNet.ParseCodecString`. -/
def splitCommas : StdString → List StdString
  | [] => [[]]
  | c :: cs =>
    match splitCommas cs with
    | [] => [[c]]
    | w :: ws => if c = 44 then [] :: w :: ws else (c :: w) :: ws

/-- Removal of everything from the first dot on, used by `sampleNet.ParseCodecString`
with `strip`. -/
def stripDot (s : StdString) : StdString := s.takeWhile (fun c => c != 46)

/-- A sample library: `video/webm` is a plain media container, `audio/mp4` a strict one
that accepts exactly the codec list `mp4a.40.2`; `vp8` and `vorbis` are the known codecs. -/
def sampleNet : MimeUtil where
  IsSupportedMimeType s := s = bytes "text/html" || s = bytes "image/png"
  IsSupportedImageMimeType s := s = bytes "image/png"
  IsSupportedJavascriptMimeType s := s = bytes "text/javascript"
  IsSupportedNonImageMimeType s := s = bytes "text/html"
  IsSupportedMediaMimeType s := s = bytes "video/webm" || s = bytes "audio/mp4"
  IsStrictMediaMimeType s := s = bytes "audio/mp4"
  ParseCodecString s strip := if strip then (splitCommas s).map stripDot else splitCommas s
  IsSupportedStrictMediaMimeType s codecs :=
    s = bytes "audio/mp4" && codecs = [bytes "mp4a.40.2"]
  AreSupportedMediaCodecs codecs :=
    codecs.all (fun c => c = bytes "vp8" || c = bytes "vorbis")

/-! ## Part 2: definitions for `network_menu_button.cc` -/

/-- A `double`, carried as its IEEE-754 bit pattern; `0` is the pattern of `0.0`.
Floating-point expressions of the source are parameters of the model (`Platform`). -/
abbrev double := Nat

/-- An `SkBitmap`, identified by its origin: the empty bitmap `SkBitmap()` or the bitmap
`*rb.GetBitmapNamed(id)` of the shared resource bundle. -/
inductive SkBitmap where
  | empty
  | resource (id : Int)
deriving DecidableEq, Repr

/-- The call `*ResourceBundle::GetSharedInstance().GetBitmapNamed(id)`. -/
def GetBitmapNamed (id : Int) : SkBitmap := SkBitmap.resource id

/-- The enumeration `menus::MenuModel::ItemType`. -/
inductive ItemType where
  | TYPE_COMMAND
  | TYPE_CHECK
  | TYPE_RADIO
  | TYPE_SEPARATOR
  | TYPE_SUBMENU
deriving DecidableEq, Repr

/-- The fields of a `WifiNetwork` record that this file reads. -/
structure WifiNetwork where
  ssid : StdString
  encrypted : Bool
  strength : Int
deriving DecidableEq, Repr

/-- The fields of a `CellularNetwork` record that this file reads. -/
structure CellularNetwork where
  name : StdString
  strength : Int
deriving DecidableEq, Repr

/-- The default-constructed `WifiNetwork()`. -/
def WifiNetwork.default : WifiNetwork := ⟨[], false, 0⟩

/-- The default-constructed `CellularNetwork()`. -/
def CellularNetwork.default : CellularNetwork := ⟨[], 0⟩

/-- Modelled from the spec: the header declaring `NetworkMenuButton::MenuItem` is not among
the source files. A menu-item descriptor holds a "label, icon, associated network record,
behavior flags" and its item type. -/
structure MenuItem where
  type : ItemType
  label : string16
  icon : SkBitmap
  wifi_network : WifiNetwork
  cellular_network : CellularNetwork
  flags : Nat
deriving DecidableEq, Repr

/-- Modelled from the spec: the default constructor `MenuItem()` of the absent header, used
by the source for the separators ("// Separator."): a separator with no label, no icon, no
network record and no flag. -/
def MenuItem.separator : MenuItem :=
  ⟨ItemType.TYPE_SEPARATOR, [], SkBitmap.empty, WifiNetwork.default, CellularNetwork.default, 0⟩

/-- What the file takes from generated headers, the class declaration and the libraries:
resource identifiers, flag constants, localisation tables, string conversion, and the two
floating-point expressions of the source. All are parameters. -/
structure Platform where
  IDR_STATUSBAR_WIRED : Int
  IDR_STATUSBAR_WIRED_BLACK : Int
  IDR_STATUSBAR_NETWORK_DISCONNECTED : Int
  IDR_STATUSBAR_NETWORK_BARS0 : Int
  IDR_STATUSBAR_NETWORK_BARS1 : Int
  IDR_STATUSBAR_NETWORK_BARS1_BLACK : Int
  IDS_STATUSBAR_NETWORK_DEVICE_ETHERNET : Int
  IDS_STATUSBAR_NETWORK_DEVICE_WIFI : Int
  IDS_STATUSBAR_NETWORK_DEVICE_CELLULAR : Int
  IDS_STATUSBAR_NETWORK_DEVICE_ENABLE : Int
  IDS_STATUSBAR_NETWORK_DEVICE_DISABLE : Int
  IDS_STATUSBAR_NETWORK_MENU_ITEM_INDENT : Int
  IDS_STATUSBAR_NO_NETWORKS_MESSAGE : Int
  IDS_STATUSBAR_NETWORK_OPEN_OPTIONS_DIALOG : Int
  FLAG_DISABLED : Nat
  FLAG_TOGGLE_ETHERNET : Nat
  FLAG_TOGGLE_WIFI : Nat
  FLAG_TOGGLE_CELLULAR : Nat
  FLAG_TOGGLE_OFFLINE : Nat
  FLAG_BOLD : Nat
  FLAG_ETHERNET : Nat
  FLAG_WIFI : Nat
  FLAG_CELLULAR : Nat
  FLAG_OPTIONS : Nat
  /-- The function `l10n_util::GetStringUTF16(id)`. -/
  GetStringUTF16 : Int → string16
  /-- The function `l10n_util::GetStringFUTF16(id, a)`. -/
  GetStringFUTF16 : Int → string16 → string16
  /-- The function `ASCIIToUTF16` of `base/utf_string_conversions.h`. -/
  ASCIIToUTF16 : StdString → string16
  /-- The expression
  `static_cast<int>(strength / 100.0 * nextafter(static_cast<float>(kNumWifiImages), 0))`
  as a function of `strength`. -/
  strengthToIndex : Int → Int
  /-- The expression `static_cast<int>(v * 100.0)` as a function of the double `v`. -/
  timesHundredToInt : double → Int

/-- What the file reads from `NetworkLibrary::Get()` during one call: the live network
state. -/
structure NetworkLibrary where
  EnsureLoaded : Bool
  Connected : Bool
  ethernet_connecting : Bool
  ethernet_connected : Bool
  wifi_connecting : Bool
  wifi_connected : Bool
  cellular_connecting : Bool
  cellular_connected : Bool
  wifi_enabled : Bool
  cellular_enabled : Bool
  wifi_strength : Int
  cellular_strength : Int
  wifi_ssid : StdString
  cellular_name : StdString
  wifi_networks : List WifiNetwork
  cellular_networks : List CellularNetwork
  IPAddress : StdString

/-- What the file reads from `host_` (a `StatusAreaHost`) while building the menu. -/
structure StatusAreaHost where
  ShouldOpenButtonOptions : Bool

/-- Modelled from the spec: the class `ThrobAnimation` is not among the source files. The
connecting animation is "a cosmetic progress bar": it is running or not, has a current
value, and a number of cycles left to throb. -/
structure ThrobAnimation where
  animating : Bool
  value_current : double
  cycles_remaining : Int
deriving DecidableEq, Repr

namespace ThrobAnimation

/-- Modelled from the spec: `IsAnimating()` of the absent animation class: whether the
animation is running. -/
def IsAnimating (a : ThrobAnimation) : Bool := a.animating

/-- Modelled from the spec: `GetCurrentValue()` of the absent animation class. -/
def GetCurrentValue (a : ThrobAnimation) : double := a.value_current

/-- Modelled from the spec: `Reset()` of the absent animation class: the animation is
stopped and its value is back at `0.0`. -/
def Reset (a : ThrobAnimation) : ThrobAnimation :=
  { a with animating := false, value_current := 0 }

/-- Modelled from the spec: `StartThrobbing(cycles_til_stop)` of the absent animation
class: the animation runs from here on, for the given number of cycles. -/
def StartThrobbing (a : ThrobAnimation) (cycles_til_stop : Int) : ThrobAnimation :=
  { a with animating := true, cycles_remaining := cycles_til_stop }

/-- Modelled from the spec: `Stop()` of the absent animation class: the animation no
longer runs. -/
def Stop (a : ThrobAnimation) : ThrobAnimation := { a with animating := false }

end ThrobAnimation

/-- The value `std::numeric_limits<int>::max()`. -/
def INT_MAX : Int := 2147483647

/-- The method `std::vector::push_back`. -/
def push_back {α : Type} (v : List α) (x : α) : List α := v ++ [x]

/-- The method `std::vector::clear`. -/
def clear {α : Type} (_v : List α) : List α := []

/-- Which animation a delegate callback is about: `&animation_connecting_` or another one. -/
inductive AnimationRef where
  | animation_connecting
  | other
deriving DecidableEq, Repr

namespace chromeos

/-- The state of a `NetworkMenuButton` that the modelled methods read or write.
`scheduled_paints` counts the calls of `SchedulePaint()`. -/
structure NetworkMenuButton where
  menu_items_ : List MenuItem
  icon_ : SkBitmap
  animation_connecting_ : ThrobAnimation
  refreshing_menu_ : Bool
  activated_wifi_network_ : WifiNetwork
  scheduled_paints : Nat
deriving DecidableEq, Repr

namespace NetworkMenuButton

/-- The constant `NetworkMenuButton::kNumWifiImages` (line 26). -/
def kNumWifiImages : Int := 9

/-- The constant `NetworkMenuButton::kThrobDuration` (line 27). -/
def kThrobDuration : Int := 1000

/-- The inherited `SetIcon(icon)`: stores the icon of the button. -/
def SetIcon (b : NetworkMenuButton) (icon : SkBitmap) : NetworkMenuButton :=
  { b with icon_ := icon }

/-- The inherited `SchedulePaint()`: asks for a repaint. -/
def SchedulePaint (b : NetworkMenuButton) : NetworkMenuButton :=
  { b with scheduled_paints := b.scheduled_paints + 1 }

/-- The static method `IconForNetworkStrength` (lines 337-348). -/
def IconForNetworkStrength (P : Platform) (strength : Int) (black : Bool) : SkBitmap :=
  let index := P.strengthToIndex strength
  let index := if index < 0 then 0 else index
  let index := if index ≥ kNumWifiImages then kNumWifiImages - 1 else index
  let base := if black then P.IDR_STATUSBAR_NETWORK_BARS1_BLACK
    else P.IDR_STATUSBAR_NETWORK_BARS1
  GetBitmapNamed (base + index)

/-- The method `AnimationProgressed` (lines 150-164). `inherited` is
`MenuButton::AnimationProgressed`, the base-class handler of any other animation. -/
def AnimationProgressed (P : Platform) (inherited : NetworkMenuButton → NetworkMenuButton)
    (animation : AnimationRef) (b : NetworkMenuButton) : NetworkMenuButton :=
  if animation = AnimationRef.animation_connecting then
    -- Figure out which image to draw. We want a value between 0-100.
    let value := P.timesHundredToInt b.animation_connecting_.GetCurrentValue
    let value := if value < 0 then 0 else if value > 100 then 100 else value
    let b := SetIcon b (IconForNetworkStrength P value false)
    SchedulePaint b
  else
    inherited b

/-- The method `NetworkChanged` (lines 290-319). -/
def NetworkChanged (P : Platform) (cros : NetworkLibrary) (b : NetworkMenuButton) :
    NetworkMenuButton :=
  let b :=
    if cros.EnsureLoaded then
      if cros.wifi_connecting || cros.cellular_connecting then
        -- Start the connecting animation if not running.
        if !b.animation_connecting_.IsAnimating then
          let b := { b with animation_connecting_ := b.animation_connecting_.Reset }
          let b := { b with
            animation_connecting_ := b.animation_connecting_.StartThrobbing INT_MAX }
          SetIcon b (GetBitmapNamed P.IDR_STATUSBAR_NETWORK_BARS1)
        else b
      else
        -- Stop connecting animation since we are not connecting.
        let b := { b with animation_connecting_ := b.animation_connecting_.Stop }
        -- Always show the higher priority connection first. Ethernet then wifi.
        if cros.ethernet_connected then
          SetIcon b (GetBitmapNamed P.IDR_STATUSBAR_WIRED)
        else if cros.wifi_connected then
          SetIcon b (IconForNetworkStrength P cros.wifi_strength false)
        else if cros.cellular_connected then
          SetIcon b (IconForNetworkStrength P cros.cellular_strength false)
        else
          SetIcon b (GetBitmapNamed P.IDR_STATUSBAR_NETWORK_BARS0)
    else
      SetIcon b (GetBitmapNamed P.IDR_STATUSBAR_NETWORK_BARS0)
  SchedulePaint b

/-- The method `InitMenuItems` (lines 362-459). -/
def InitMenuItems (P : Platform) (cros : NetworkLibrary) (host_ : StatusAreaHost)
    (b : NetworkMenuButton) : NetworkMenuButton :=
  let menu_items_ := clear b.menu_items_
  -- Ethernet
  let label := P.GetStringUTF16 P.IDS_STATUSBAR_NETWORK_DEVICE_ETHERNET
  let icon := if cros.ethernet_connecting || cros.ethernet_connected then
      GetBitmapNamed P.IDR_STATUSBAR_WIRED_BLACK
    else GetBitmapNamed P.IDR_STATUSBAR_NETWORK_DISCONNECTED
  let flag := if cros.ethernet_connecting || cros.ethernet_connected then
      P.FLAG_ETHERNET &&& P.FLAG_BOLD
    else P.FLAG_ETHERNET
  let menu_items_ := push_back menu_items_
    ⟨ItemType.TYPE_COMMAND, label, icon, WifiNetwork.default, CellularNetwork.default, flag⟩
  -- Wifi
  let wifi_networks := cros.wifi_networks
  let menu_items_ := wifi_networks.foldl (fun menu_items_ wifi =>
    let label := P.ASCIIToUTF16 wifi.ssid
    let flag := if wifi.ssid = cros.wifi_ssid then P.FLAG_WIFI &&& P.FLAG_BOLD
      else P.FLAG_WIFI
    push_back menu_items_
      ⟨ItemType.TYPE_COMMAND, label, IconForNetworkStrength P wifi.strength true,
        wifi, CellularNetwork.default, flag⟩) menu_items_
  -- Cellular
  let cell_networks := cros.cellular_networks
  let menu_items_ := cell_networks.foldl (fun menu_items_ cell =>
    let label := P.ASCIIToUTF16 cell.name
    let flag := if cell.name = cros.cellular_name then P.FLAG_CELLULAR &&& P.FLAG_BOLD
      else P.FLAG_CELLULAR
    push_back menu_items_
      ⟨ItemType.TYPE_COMMAND, label, IconForNetworkStrength P cell.strength true,
        WifiNetwork.default, cell, flag⟩) menu_items_
  -- No networks available message.
  let menu_items_ :=
    if wifi_networks.isEmpty && cell_networks.isEmpty then
      let label := P.GetStringFUTF16 P.IDS_STATUSBAR_NETWORK_MENU_ITEM_INDENT
        (P.GetStringUTF16 P.IDS_STATUSBAR_NO_NETWORKS_MESSAGE)
      push_back menu_items_
        ⟨ItemType.TYPE_COMMAND, label, SkBitmap.empty, WifiNetwork.default,
          CellularNetwork.default, P.FLAG_DISABLED⟩
    else menu_items_
  -- Separator.
  let menu_items_ := push_back menu_items_ MenuItem.separator
  -- Turn Wifi Off.
  let label := if cros.wifi_enabled then
      P.GetStringFUTF16 P.IDS_STATUSBAR_NETWORK_DEVICE_DISABLE
        (P.GetStringUTF16 P.IDS_STATUSBAR_NETWORK_DEVICE_WIFI)
    else
      P.GetStringFUTF16 P.IDS_STATUSBAR_NETWORK_DEVICE_ENABLE
        (P.GetStringUTF16 P.IDS_STATUSBAR_NETWORK_DEVICE_WIFI)
  let menu_items_ := push_back menu_items_
    ⟨ItemType.TYPE_COMMAND, label, SkBitmap.empty, WifiNetwork.default,
      CellularNetwork.default, P.FLAG_TOGGLE_WIFI⟩
  -- Turn Cellular Off.
  let label := if cros.cellular_enabled then
      P.GetStringFUTF16 P.IDS_STATUSBAR_NETWORK_DEVICE_DISABLE
        (P.GetStringUTF16 P.IDS_STATUSBAR_NETWORK_DEVICE_CELLULAR)
    else
      P.GetStringFUTF16 P.IDS_STATUSBAR_NETWORK_DEVICE_ENABLE
        (P.GetStringUTF16 P.IDS_STATUSBAR_NETWORK_DEVICE_CELLULAR)
  let menu_items_ := push_back menu_items_
    ⟨ItemType.TYPE_COMMAND, label, SkBitmap.empty, WifiNetwork.default,
      CellularNetwork.default, P.FLAG_TOGGLE_CELLULAR⟩
  let menu_items_ :=
    if host_.ShouldOpenButtonOptions then
      -- Separator.
      let menu_items_ := push_back menu_items_ MenuItem.separator
      -- Network settings.
      let label := P.GetStringUTF16 P.IDS_STATUSBAR_NETWORK_OPEN_OPTIONS_DIALOG
      push_back menu_items_
        ⟨ItemType.TYPE_COMMAND, label, SkBitmap.empty, WifiNetwork.default,
          CellularNetwork.default, P.FLAG_OPTIONS⟩
    else menu_items_
  -- IP address
  let menu_items_ :=
    if cros.Connected then
      -- Separator.
      let menu_items_ := push_back menu_items_ MenuItem.separator
      push_back menu_items_
        ⟨ItemType.TYPE_COMMAND, P.ASCIIToUTF16 cros.IPAddress, SkBitmap.empty,
          WifiNetwork.default, CellularNetwork.default, P.FLAG_DISABLED⟩
    else menu_items_
  { b with menu_items_ := menu_items_ }

/-- The method `RunMenu` (lines 353-360), as far as the state of the button goes: the
calls `network_menu_.Rebuild()`, `network_menu_.UpdateStates()` and
`network_menu_.RunMenuAt(...)` act on the native menu object, which reads the button
through the `MenuModel` getters; an item activation they trigger while
`refreshing_menu_` is set is ignored by `ActivatedAt`. -/
def RunMenu (P : Platform) (cros : NetworkLibrary) (host_ : StatusAreaHost)
    (b : NetworkMenuButton) : NetworkMenuButton :=
  let b := { b with refreshing_menu_ := true }
  let b := InitMenuItems P cros host_ b
  { b with refreshing_menu_ := false }

end NetworkMenuButton

end chromeos

/-! ### A sample platform and network state used to evaluate the button on concrete inputs -/

/-- A sample platform: distinct resource identifiers, one bit per flag, a widening
`ASCIIToUTF16`, and the two floating-point expressions tabulated on the values the
examples use (strengths `0..100`; the doubles `0.0`, `0.5`, `1.0`, `1.5` and `-0.25`). -/
def samplePlatform : Platform where
  IDR_STATUSBAR_WIRED := 100
  IDR_STATUSBAR_WIRED_BLACK := 101
  IDR_STATUSBAR_NETWORK_DISCONNECTED := 102
  IDR_STATUSBAR_NETWORK_BARS0 := 110
  IDR_STATUSBAR_NETWORK_BARS1 := 111
  IDR_STATUSBAR_NETWORK_BARS1_BLACK := 131
  IDS_STATUSBAR_NETWORK_DEVICE_ETHERNET := 1
  IDS_STATUSBAR_NETWORK_DEVICE_WIFI := 2
  IDS_STATUSBAR_NETWORK_DEVICE_CELLULAR := 3
  IDS_STATUSBAR_NETWORK_DEVICE_ENABLE := 4
  IDS_STATUSBAR_NETWORK_DEVICE_DISABLE := 5
  IDS_STATUSBAR_NETWORK_MENU_ITEM_INDENT := 6
  IDS_STATUSBAR_NO_NETWORKS_MESSAGE := 7
  IDS_STATUSBAR_NETWORK_OPEN_OPTIONS_DIALOG := 8
  FLAG_DISABLED := 1
  FLAG_TOGGLE_ETHERNET := 2
  FLAG_TOGGLE_WIFI := 4
  FLAG_TOGGLE_CELLULAR := 8
  FLAG_TOGGLE_OFFLINE := 16
  FLAG_BOLD := 32
  FLAG_ETHERNET := 64
  FLAG_WIFI := 128
  FLAG_CELLULAR := 256
  FLAG_OPTIONS := 512
  GetStringUTF16 id := if id = 1 then bytes "Ethernet" else if id = 2 then bytes "Wifi"
    else if id = 3 then bytes "Cellular" else if id = 7 then bytes "No networks"
    else if id = 8 then bytes "Options" else []
  GetStringFUTF16 id a := if id = 4 then bytes "Enable " ++ a
    else if id = 5 then bytes "Disable " ++ a else bytes "  " ++ a
  ASCIIToUTF16 s := s
  strengthToIndex s := if s = 0 then 0 else if 0 < s then (9 * s - 1) / 100
    else -((9 * (-s) - 1) / 100)
  timesHundredToInt v := if v = 0x3FE0000000000000 then 50
    else if v = 0x3FF0000000000000 then 100
    else if v = 0x3FF8000000000000 then 150
    else if v = 0xBFD0000000000000 then -25 else 0

/-- A sample network state: loaded, wifi connecting to `home`, two wifi networks and one
cellular network in range. -/
def sampleCros : NetworkLibrary where
  EnsureLoaded := true
  Connected := false
  ethernet_connecting := false
  ethernet_connected := false
  wifi_connecting := true
  wifi_connected := false
  cellular_connecting := false
  cellular_connected := false
  wifi_enabled := true
  cellular_enabled := true
  wifi_strength := 0
  cellular_strength := 0
  wifi_ssid := bytes "home"
  cellular_name := []
  wifi_networks := [⟨bytes "home", true, 80⟩, ⟨bytes "cafe", false, 35⟩]
  cellular_networks := [⟨bytes "carrier", 60⟩]
  IPAddress := []

/-- The sample network state once the connection is up: nothing is connecting, wifi is
connected with strength 80. -/
def sampleCrosConnected : NetworkLibrary :=
  { sampleCros with wifi_connecting := false, wifi_connected := true, Connected := true,
                    wifi_strength := 80, IPAddress := bytes "10.0.0.7" }

/-- A sample host that offers the options entry. -/
def sampleHost : StatusAreaHost := ⟨true⟩

/-- A sample button: idle animation, empty menu, no icon. -/
def sampleButton : chromeos.NetworkMenuButton where
  menu_items_ := []
  icon_ := SkBitmap.empty
  animation_connecting_ := ⟨false, 0x3FE0000000000000, 0⟩
  refreshing_menu_ := false
  activated_wifi_network_ := WifiNetwork.default
  scheduled_paints := 0

/-- A sample button whose menu still holds the items of an earlier open. -/
def sampleButtonStale : chromeos.NetworkMenuButton :=
  { sampleButton with menu_items_ := [MenuItem.separator, MenuItem.separator] }

/-! ## Theorems -/

open webkit_glue SupportsType

/-! ### Helper lemmas -/

theorem foldl_push_back {α β : Type} (f : α → β) (l : List α) (init : List β) :
    l.foldl (fun acc x => push_back acc (f x)) init = init ++ l.map f := by
  induction l generalizing init with
  | nil => simp
  | cons x xs ih =>
    simp only [List.foldl_cons, List.map_cons]
    rw [ih]
    simp [push_back]

theorem IsStringASCII_false_of_mem {s : string16} {c : Nat} (hc : c ∈ s) (h : 0x7F < c) :
    IsStringASCII s = false := by
  unfold IsStringASCII
  rw [Bool.eq_false_iff]
  intro hall
  have := (List.all_eq_true.mp hall) c hc
  simp at this
  omega

theorem IsStringASCII_true_of_all {s : string16} (h : ∀ c ∈ s, c ≤ 0x7F) :
    IsStringASCII s = true := by
  unfold IsStringASCII
  rw [List.all_eq_true]
  intro c hc
  simpa using h c hc

theorem UTF16ToASCII_of_all {s : string16} (h : ∀ c ∈ s, c ≤ 0x7F) :
    UTF16ToASCII s = s := by
  unfold UTF16ToASCII
  induction s with
  | nil => rfl
  | cons c cs ih =>
    have hc : c ≤ 0x7F := h c (List.mem_cons_self c cs)
    have hcs : ∀ d ∈ cs, d ≤ 0x7F := fun d hd => h d (List.mem_cons_of_mem c hd)
    simp only [List.map_cons, ih hcs]
    congr 1
    omega

theorem ToASCIIOrEmpty_of_nonASCII {s : WebString} (h : ∃ c ∈ s.toString16, 0x7F < c) :
    ToASCIIOrEmpty s = [] := by
  obtain ⟨c, hc, hlt⟩ := h
  simp [ToASCIIOrEmpty, IsStringASCII_false_of_mem hc hlt]

theorem ToASCIIOrEmpty_empty : ToASCIIOrEmpty (WebString.str []) = [] := by
  decide

/-! ### The MIME registry adapter -/

/-- C1. `supportsMediaMIMEType`: when the wrapped `IsSupportedMediaMimeType` rejects the
ASCII conversion of `mime_type`, the result is `IsNotSupported`, whatever `codecs` is
(null, empty or any string). -/
theorem supportsMediaMIMEType_unsupported_container (net : MimeUtil)
    (mime_type codecs : WebString)
    (h : net.IsSupportedMediaMimeType (ToASCIIOrEmpty mime_type) = false) :
    supportsMediaMIMEType net mime_type codecs = IsNotSupported := by
  simp [supportsMediaMIMEType, h]

/-- Witness for C1: `text/html` is no media container of the sample library; the answer is
`IsNotSupported` for null, empty and non-empty codecs. -/
theorem supportsMediaMIMEType_unsupported_container_witness :
    sampleNet.IsSupportedMediaMimeType (ToASCIIOrEmpty (web "text/html")) = false
    ∧ supportsMediaMIMEType sampleNet (web "text/html") WebString.null = IsNotSupported
    ∧ supportsMediaMIMEType sampleNet (web "text/html") (web "") = IsNotSupported
    ∧ supportsMediaMIMEType sampleNet (web "text/html") (web "vp8") = IsNotSupported :=
  ⟨by decide,
   supportsMediaMIMEType_unsupported_container sampleNet _ _ (by decide),
   supportsMediaMIMEType_unsupported_container sampleNet _ _ (by decide),
   supportsMediaMIMEType_unsupported_container sampleNet _ _ (by decide)⟩

/-- C2. `supportsMediaMIMEType` on a supported container that `IsStrictMediaMimeType` marks
strict: with null `codecs` the result is `MayBeSupported`; with non-null `codecs` the
result is `IsSupported` exactly when `IsSupportedStrictMediaMimeType` holds for the codec
list that `ParseCodecString` returns, without stripping, on the C string of the ASCII
conversion of `codecs`, it is `IsNotSupported` otherwise, and it is never
`MayBeSupported`. -/
theorem supportsMediaMIMEType_strict_container (net : MimeUtil)
    (mime_type codecs : WebString)
    (hsup : net.IsSupportedMediaMimeType (ToASCIIOrEmpty mime_type) = true)
    (hstrict : net.IsStrictMediaMimeType (ToASCIIOrEmpty mime_type) = true) :
    (codecs.isNull = true → supportsMediaMIMEType net mime_type codecs = MayBeSupported)
    ∧ (codecs.isNull = false →
        (supportsMediaMIMEType net mime_type codecs = IsSupported ↔
          net.IsSupportedStrictMediaMimeType (ToASCIIOrEmpty mime_type)
            (net.ParseCodecString (c_str (ToASCIIOrEmpty codecs)) false) = true)
        ∧ (net.IsSupportedStrictMediaMimeType (ToASCIIOrEmpty mime_type)
            (net.ParseCodecString (c_str (ToASCIIOrEmpty codecs)) false) = false →
          supportsMediaMIMEType net mime_type codecs = IsNotSupported)
        ∧ supportsMediaMIMEType net mime_type codecs ≠ MayBeSupported) := by
  refine ⟨?_, ?_⟩
  · intro hnull
    simp [supportsMediaMIMEType, hsup, hstrict, hnull]
  · intro hnull
    cases hok : net.IsSupportedStrictMediaMimeType (ToASCIIOrEmpty mime_type)
        (net.ParseCodecString (c_str (ToASCIIOrEmpty codecs)) false) <;>
      simp [supportsMediaMIMEType, hsup, hstrict, hnull, hok]

/-- Witness for C2: `audio/mp4` is a strict container of the sample library; null codecs
give `MayBeSupported`, the exact codec list gives `IsSupported`, a list with one codec
more gives `IsNotSupported`. -/
theorem supportsMediaMIMEType_strict_container_witness :
    supportsMediaMIMEType sampleNet (web "audio/mp4") WebString.null = MayBeSupported
    ∧ supportsMediaMIMEType sampleNet (web "audio/mp4") (web "mp4a.40.2") = IsSupported
    ∧ supportsMediaMIMEType sampleNet (web "audio/mp4") (web "mp4a.40.2,vp8")
        = IsNotSupported :=
  ⟨(supportsMediaMIMEType_strict_container sampleNet (web "audio/mp4") WebString.null
      (by decide) (by decide)).1 (by decide),
   ((supportsMediaMIMEType_strict_container sampleNet (web "audio/mp4") (web "mp4a.40.2")
      (by decide) (by decide)).2 (by decide)).1.mpr (by decide),
   ((supportsMediaMIMEType_strict_container sampleNet (web "audio/mp4")
      (web "mp4a.40.2,vp8") (by decide) (by decide)).2 (by decide)).2.1 (by decide)⟩

/-- C3. `supportsMediaMIMEType` on a supported container that is not strict: the result is
never `IsNotSupported`; it is `IsSupported` exactly when `AreSupportedMediaCodecs` accepts
the codec list that `ParseCodecString` returns, with stripping, on the C string of the ASCII
conversion of `codecs`, and `MayBeSupported` otherwise. -/
theorem supportsMediaMIMEType_plain_container (net : MimeUtil)
    (mime_type codecs : WebString)
    (hsup : net.IsSupportedMediaMimeType (ToASCIIOrEmpty mime_type) = true)
    (hstrict : net.IsStrictMediaMimeType (ToASCIIOrEmpty mime_type) = false) :
    supportsMediaMIMEType net mime_type codecs ≠ IsNotSupported
    ∧ (supportsMediaMIMEType net mime_type codecs = IsSupported ↔
        net.AreSupportedMediaCodecs
          (net.ParseCodecString (c_str (ToASCIIOrEmpty codecs)) true) = true)
    ∧ (net.AreSupportedMediaCodecs
          (net.ParseCodecString (c_str (ToASCIIOrEmpty codecs)) true) = false →
        supportsMediaMIMEType net mime_type codecs = MayBeSupported) := by
  cases hok : net.AreSupportedMediaCodecs
      (net.ParseCodecString (c_str (ToASCIIOrEmpty codecs)) true) <;>
    simp [supportsMediaMIMEType, hsup, hstrict, hok]

/-- Witness for C3: `video/webm` is a plain container of the sample library; the known
codecs give `IsSupported`, an unknown codec gives `MayBeSupported`. -/
theorem supportsMediaMIMEType_plain_container_witness :
    supportsMediaMIMEType sampleNet (web "video/webm") (web "vp8.0,vorbis") = IsSupported
    ∧ supportsMediaMIMEType sampleNet (web "video/webm") (web "vp9") = MayBeSupported
    ∧ supportsMediaMIMEType sampleNet (web "video/webm") WebString.null ≠ IsNotSupported :=
  ⟨(supportsMediaMIMEType_plain_container sampleNet (web "video/webm") (web "vp8.0,vorbis")
      (by decide) (by decide)).2.1.mpr (by decide),
   (supportsMediaMIMEType_plain_container sampleNet (web "video/webm") (web "vp9")
      (by decide) (by decide)).2.2 (by decide),
   (supportsMediaMIMEType_plain_container sampleNet (web "video/webm") WebString.null
      (by decide) (by decide)).1⟩

/-- C4. The single-argument queries `supportsMIMEType`, `supportsImageMIMEType`,
`supportsJavaScriptMIMEType` and `supportsNonImageMIMEType` are call-throughs: each returns
`IsSupported` exactly when its wrapped predicate holds on the ASCII conversion of the
input, `IsNotSupported` otherwise, and never `MayBeSupported`. -/
theorem single_argument_queries_call_through (net : MimeUtil) (mime_type : WebString) :
    (supportsMIMEType net mime_type =
        if net.IsSupportedMimeType (ToASCIIOrEmpty mime_type) = true then IsSupported
        else IsNotSupported)
    ∧ (supportsImageMIMEType net mime_type =
        if net.IsSupportedImageMimeType (ToASCIIOrEmpty mime_type) = true then IsSupported
        else IsNotSupported)
    ∧ (supportsJavaScriptMIMEType net mime_type =
        if net.IsSupportedJavascriptMimeType (ToASCIIOrEmpty mime_type) = true
        then IsSupported else IsNotSupported)
    ∧ (supportsNonImageMIMEType net mime_type =
        if net.IsSupportedNonImageMimeType (ToASCIIOrEmpty mime_type) = true
        then IsSupported else IsNotSupported)
    ∧ (supportsMIMEType net mime_type = IsSupported ↔
        net.IsSupportedMimeType (ToASCIIOrEmpty mime_type) = true)
    ∧ (supportsImageMIMEType net mime_type = IsSupported ↔
        net.IsSupportedImageMimeType (ToASCIIOrEmpty mime_type) = true)
    ∧ (supportsJavaScriptMIMEType net mime_type = IsSupported ↔
        net.IsSupportedJavascriptMimeType (ToASCIIOrEmpty mime_type) = true)
    ∧ (supportsNonImageMIMEType net mime_type = IsSupported ↔
        net.IsSupportedNonImageMimeType (ToASCIIOrEmpty mime_type) = true)
    ∧ supportsMIMEType net mime_type ≠ MayBeSupported
    ∧ supportsImageMIMEType net mime_type ≠ MayBeSupported
    ∧ supportsJavaScriptMIMEType net mime_type ≠ MayBeSupported
    ∧ supportsNonImageMIMEType net mime_type ≠ MayBeSupported := by
  unfold supportsMIMEType supportsImageMIMEType supportsJavaScriptMIMEType
    supportsNonImageMIMEType
  cases net.IsSupportedMimeType (ToASCIIOrEmpty mime_type) <;>
  cases net.IsSupportedImageMimeType (ToASCIIOrEmpty mime_type) <;>
  cases net.IsSupportedJavascriptMimeType (ToASCIIOrEmpty mime_type) <;>
  cases net.IsSupportedNonImageMimeType (ToASCIIOrEmpty mime_type) <;>
  simp

/-- C5. `ToASCIIOrEmpty`: for a string with at least one non-ASCII code unit the result is
empty, so every `supports*` query answers on it exactly as on the empty MIME type; for an
all-ASCII string the result has the length and the characters of the input. -/
theorem ToASCIIOrEmpty_falls_back_on_empty (s : WebString) :
    ((∃ c ∈ s.toString16, 0x7F < c) →
        ToASCIIOrEmpty s = []
        ∧ ∀ (net : MimeUtil) (codecs : WebString),
            supportsMIMEType net s = supportsMIMEType net (WebString.str [])
            ∧ supportsImageMIMEType net s = supportsImageMIMEType net (WebString.str [])
            ∧ supportsJavaScriptMIMEType net s
                = supportsJavaScriptMIMEType net (WebString.str [])
            ∧ supportsNonImageMIMEType net s
                = supportsNonImageMIMEType net (WebString.str [])
            ∧ supportsMediaMIMEType net s codecs
                = supportsMediaMIMEType net (WebString.str []) codecs)
    ∧ ((∀ c ∈ s.toString16, c ≤ 0x7F) →
        (ToASCIIOrEmpty s).length = s.toString16.length
        ∧ ToASCIIOrEmpty s = s.toString16) := by
  refine ⟨?_, ?_⟩
  · intro h
    have he := ToASCIIOrEmpty_of_nonASCII h
    refine ⟨he, ?_⟩
    intro net codecs
    simp only [supportsMIMEType, supportsImageMIMEType, supportsJavaScriptMIMEType,
      supportsNonImageMIMEType, supportsMediaMIMEType, he, ToASCIIOrEmpty_empty]
    simp
  · intro h
    have hs : ToASCIIOrEmpty s = s.toString16 := by
      simp [ToASCIIOrEmpty, IsStringASCII_true_of_all h, UTF16ToASCII_of_all h]
    exact ⟨by rw [hs], hs⟩

/-- Witness for C5: `té` (with the unit `0xE9`) converts to the empty string and is
answered like the empty MIME type; `text/html` converts to its own nine characters. -/
theorem ToASCIIOrEmpty_falls_back_on_empty_witness :
    ToASCIIOrEmpty (WebString.str [0x74, 0xE9]) = []
    ∧ supportsMIMEType sampleNet (WebString.str [0x74, 0xE9])
        = supportsMIMEType sampleNet (WebString.str [])
    ∧ (ToASCIIOrEmpty (web "text/html")).length = 9
    ∧ ToASCIIOrEmpty (web "text/html") = bytes "text/html" :=
  ⟨((ToASCIIOrEmpty_falls_back_on_empty (WebString.str [0x74, 0xE9])).1
      ⟨0xE9, by decide, by decide⟩).1,
   (((ToASCIIOrEmpty_falls_back_on_empty (WebString.str [0x74, 0xE9])).1
      ⟨0xE9, by decide, by decide⟩).2 sampleNet WebString.null).1,
   ((ToASCIIOrEmpty_falls_back_on_empty (web "text/html")).2 (by decide)).1,
   ((ToASCIIOrEmpty_falls_back_on_empty (web "text/html")).2 (by decide)).2⟩

/-! ### The network menu button -/

open chromeos chromeos.NetworkMenuButton

theorem layout_push_back {α : Type} {Q : α → Prop} {pre l : List α} {x : α}
    (h : ∃ r, l = pre ++ r ∧ ∀ it ∈ r, Q it) (hx : Q x) :
    ∃ r, push_back l x = pre ++ r ∧ ∀ it ∈ r, Q it := by
  obtain ⟨r, rfl, hr⟩ := h
  refine ⟨r ++ [x], by simp [push_back], ?_⟩
  intro it hit
  rcases List.mem_append.mp hit with h | h
  · exact hr it h
  · rw [List.mem_singleton.mp h]
    exact hx

theorem layout_ite {α : Type} {Q : α → Prop} {pre a b : List α} {c : Prop} [Decidable c]
    (ha : ∃ r, a = pre ++ r ∧ ∀ it ∈ r, Q it) (hb : ∃ r, b = pre ++ r ∧ ∀ it ∈ r, Q it) :
    ∃ r, (if c then a else b) = pre ++ r ∧ ∀ it ∈ r, Q it := by
  split
  · exact ha
  · exact hb

theorem InitMenuItems_layout (P : Platform) (cros : NetworkLibrary) (host_ : StatusAreaHost)
    (b : NetworkMenuButton) :
    ∃ (e : MenuItem) (fw : WifiNetwork → MenuItem) (fc : CellularNetwork → MenuItem)
      (rest : List MenuItem),
      (InitMenuItems P cros host_ b).menu_items_
        = e :: (cros.wifi_networks.map fw ++ cros.cellular_networks.map fc ++ rest)
      ∧ (e.type = ItemType.TYPE_COMMAND
          ∧ e.label = P.GetStringUTF16 P.IDS_STATUSBAR_NETWORK_DEVICE_ETHERNET
          ∧ e.wifi_network = WifiNetwork.default
          ∧ e.cellular_network = CellularNetwork.default)
      ∧ (∀ w, (fw w).type = ItemType.TYPE_COMMAND ∧ (fw w).label = P.ASCIIToUTF16 w.ssid
          ∧ (fw w).wifi_network = w ∧ (fw w).cellular_network = CellularNetwork.default)
      ∧ (∀ c, (fc c).type = ItemType.TYPE_COMMAND ∧ (fc c).label = P.ASCIIToUTF16 c.name
          ∧ (fc c).cellular_network = c ∧ (fc c).wifi_network = WifiNetwork.default)
      ∧ (∀ it ∈ rest, it.wifi_network = WifiNetwork.default
          ∧ it.cellular_network = CellularNetwork.default) := by
  have key : ∃ r, (InitMenuItems P cros host_ b).menu_items_
      = (push_back []
          (⟨ItemType.TYPE_COMMAND, P.GetStringUTF16 P.IDS_STATUSBAR_NETWORK_DEVICE_ETHERNET,
            if cros.ethernet_connecting || cros.ethernet_connected then
              GetBitmapNamed P.IDR_STATUSBAR_WIRED_BLACK
            else GetBitmapNamed P.IDR_STATUSBAR_NETWORK_DISCONNECTED,
            WifiNetwork.default, CellularNetwork.default,
            if cros.ethernet_connecting || cros.ethernet_connected then
              P.FLAG_ETHERNET &&& P.FLAG_BOLD
            else P.FLAG_ETHERNET⟩ : MenuItem)
        ++ cros.wifi_networks.map (fun wifi =>
            (⟨ItemType.TYPE_COMMAND, P.ASCIIToUTF16 wifi.ssid,
              IconForNetworkStrength P wifi.strength true, wifi, CellularNetwork.default,
              if wifi.ssid = cros.wifi_ssid then P.FLAG_WIFI &&& P.FLAG_BOLD
              else P.FLAG_WIFI⟩ : MenuItem))
        ++ cros.cellular_networks.map (fun cell =>
            (⟨ItemType.TYPE_COMMAND, P.ASCIIToUTF16 cell.name,
              IconForNetworkStrength P cell.strength true, WifiNetwork.default, cell,
              if cell.name = cros.cellular_name then P.FLAG_CELLULAR &&& P.FLAG_BOLD
              else P.FLAG_CELLULAR⟩ : MenuItem))) ++ r
      ∧ ∀ it ∈ r, (it.wifi_network = WifiNetwork.default
          ∧ it.cellular_network = CellularNetwork.default) := by
    simp only [InitMenuItems, clear, foldl_push_back]
    repeat first
      | exact ⟨[], (List.append_nil _).symm, fun _ h => absurd h (List.not_mem_nil _)⟩
      | exact ⟨rfl, rfl⟩
      | apply layout_ite
      | apply layout_push_back
  obtain ⟨r, hr, hQ⟩ := key
  exact ⟨_, _, _, r, hr, ⟨rfl, rfl, rfl, rfl⟩, fun w => ⟨rfl, rfl, rfl, rfl⟩,
    fun c => ⟨rfl, rfl, rfl, rfl⟩, hQ⟩

/-- C6. The menu-item list is rebuilt from the live network state on every menu open: for
any two prior button states (so any two prior `menu_items_`) and the same platform,
network-library and host snapshot, `InitMenuItems` produces the same list; running it
twice on an unchanged snapshot gives what running it once gives; and `RunMenu` leaves in
`menu_items_` exactly the list `InitMenuItems` builds. -/
theorem InitMenuItems_independent_of_previous_items (P : Platform) (cros : NetworkLibrary)
    (host_ : StatusAreaHost) (b1 b2 : NetworkMenuButton) :
    (InitMenuItems P cros host_ b1).menu_items_ = (InitMenuItems P cros host_ b2).menu_items_
    ∧ InitMenuItems P cros host_ (InitMenuItems P cros host_ b1) = InitMenuItems P cros host_ b1
    ∧ (RunMenu P cros host_ b1).menu_items_ = (InitMenuItems P cros host_ b2).menu_items_ :=
  ⟨rfl, rfl, rfl⟩

/-- C7. After `InitMenuItems` the first item is the Ethernet item; it is followed by one
item per wifi network in the order of the library, with the label of that network's ssid
and carrying that network's record; then by one item per cellular network in the order of
the library, with the label of that network's name and carrying that network's record; no
item from the first cellular position on carries a wifi record. -/
theorem InitMenuItems_ethernet_then_wifi_then_cellular (P : Platform)
    (cros : NetworkLibrary) (host_ : StatusAreaHost) (b : NetworkMenuButton) :
    (∃ e, (InitMenuItems P cros host_ b).menu_items_[0]? = some e
        ∧ e.type = ItemType.TYPE_COMMAND
        ∧ e.label = P.GetStringUTF16 P.IDS_STATUSBAR_NETWORK_DEVICE_ETHERNET
        ∧ e.wifi_network = WifiNetwork.default
        ∧ e.cellular_network = CellularNetwork.default)
    ∧ (∀ (i : Nat) (w : WifiNetwork), cros.wifi_networks[i]? = some w →
        ∃ it, (InitMenuItems P cros host_ b).menu_items_[1 + i]? = some it
          ∧ it.type = ItemType.TYPE_COMMAND
          ∧ it.label = P.ASCIIToUTF16 w.ssid
          ∧ it.wifi_network = w
          ∧ it.cellular_network = CellularNetwork.default)
    ∧ (∀ (j : Nat) (c : CellularNetwork), cros.cellular_networks[j]? = some c →
        ∃ it, (InitMenuItems P cros host_ b).menu_items_[1 + cros.wifi_networks.length + j]?
            = some it
          ∧ it.type = ItemType.TYPE_COMMAND
          ∧ it.label = P.ASCIIToUTF16 c.name
          ∧ it.cellular_network = c
          ∧ it.wifi_network = WifiNetwork.default)
    ∧ (∀ (k : Nat) (it : MenuItem), 1 + cros.wifi_networks.length ≤ k →
        (InitMenuItems P cros host_ b).menu_items_[k]? = some it →
        it.wifi_network = WifiNetwork.default)
    ∧ (∀ (k : Nat) (it : MenuItem),
        1 + cros.wifi_networks.length + cros.cellular_networks.length ≤ k →
        (InitMenuItems P cros host_ b).menu_items_[k]? = some it →
        it.cellular_network = CellularNetwork.default) := by
  obtain ⟨e, fw, fc, rest, hitems, he, hfw, hfc, hrest⟩ := InitMenuItems_layout P cros host_ b
  rw [hitems]
  refine ⟨⟨e, by simp, he⟩, ?_, ?_, ?_, ?_⟩
  · intro i w hw
    refine ⟨fw w, ?_, hfw w⟩
    have hi : i < (cros.wifi_networks.map fw).length := by
      rw [List.length_map]
      exact (List.getElem?_eq_some.mp hw).1
    rw [Nat.add_comm 1 i, List.getElem?_cons_succ, List.append_assoc,
      List.getElem?_append_left hi, List.getElem?_map, hw]
    rfl
  · intro j c hc
    refine ⟨fc c, ?_, hfc c⟩
    have hj : j < (cros.cellular_networks.map fc).length := by
      rw [List.length_map]
      exact (List.getElem?_eq_some.mp hc).1
    have hle : (cros.wifi_networks.map fw).length ≤ cros.wifi_networks.length + j := by
      rw [List.length_map]
      exact Nat.le_add_right _ _
    rw [Nat.add_assoc, Nat.add_comm 1 _, List.getElem?_cons_succ, List.append_assoc,
      List.getElem?_append_right hle, List.length_map, Nat.add_sub_cancel_left,
      List.getElem?_append_left hj, List.getElem?_map, hc]
    rfl
  · intro k it hk hit
    obtain ⟨m, rfl⟩ : ∃ m, k = (cros.wifi_networks.length + m) + 1 :=
      ⟨k - (1 + cros.wifi_networks.length), by omega⟩
    have hle : (cros.wifi_networks.map fw).length ≤ cros.wifi_networks.length + m := by
      rw [List.length_map]
      exact Nat.le_add_right _ _
    rw [List.getElem?_cons_succ, List.append_assoc, List.getElem?_append_right hle,
      List.length_map, Nat.add_sub_cancel_left] at hit
    have hmem : it ∈ cros.cellular_networks.map fc ++ rest := List.getElem?_mem hit
    rcases List.mem_append.mp hmem with h | h
    · obtain ⟨c, -, rfl⟩ := List.mem_map.mp h
      exact (hfc c).2.2.2
    · exact (hrest it h).1
  · intro k it hk hit
    obtain ⟨m, rfl⟩ :
        ∃ m, k = (cros.wifi_networks.length + cros.cellular_networks.length + m) + 1 :=
      ⟨k - (1 + cros.wifi_networks.length + cros.cellular_networks.length), by omega⟩
    have hle : (cros.wifi_networks.map fw ++ cros.cellular_networks.map fc).length
        ≤ cros.wifi_networks.length + cros.cellular_networks.length + m := by
      rw [List.length_append, List.length_map, List.length_map]
      exact Nat.le_add_right _ _
    rw [List.getElem?_cons_succ, List.getElem?_append_right hle] at hit
    exact (hrest it (List.getElem?_mem hit)).2

/-- Witness for C7: with the sample state (wifi networks `home`, `cafe`; cellular network
`carrier`) the item at position 2 is the one of `cafe`, the item at position 3 is the one
of `carrier`. -/
theorem InitMenuItems_ethernet_then_wifi_then_cellular_witness :
    (∃ it, (InitMenuItems samplePlatform sampleCros sampleHost
            sampleButtonStale).menu_items_[1 + 1]? = some it
        ∧ it.type = ItemType.TYPE_COMMAND
        ∧ it.label = samplePlatform.ASCIIToUTF16 (bytes "cafe")
        ∧ it.wifi_network = ⟨bytes "cafe", false, 35⟩
        ∧ it.cellular_network = CellularNetwork.default)
    ∧ (∃ it, (InitMenuItems samplePlatform sampleCros sampleHost
            sampleButtonStale).menu_items_[1 + sampleCros.wifi_networks.length + 0]? = some it
        ∧ it.type = ItemType.TYPE_COMMAND
        ∧ it.label = samplePlatform.ASCIIToUTF16 (bytes "carrier")
        ∧ it.cellular_network = ⟨bytes "carrier", 60⟩
        ∧ it.wifi_network = WifiNetwork.default)
    ∧ MenuItem.separator.wifi_network = WifiNetwork.default :=
  ⟨(InitMenuItems_ethernet_then_wifi_then_cellular samplePlatform sampleCros sampleHost
      sampleButtonStale).2.1 1 ⟨bytes "cafe", false, 35⟩ (by decide),
   (InitMenuItems_ethernet_then_wifi_then_cellular samplePlatform sampleCros sampleHost
      sampleButtonStale).2.2.1 0 ⟨bytes "carrier", 60⟩ (by decide),
   (InitMenuItems_ethernet_then_wifi_then_cellular samplePlatform sampleCros sampleHost
      sampleButtonStale).2.2.2.1 4 MenuItem.separator (by decide) (by decide)⟩

/-- C8. The connecting animation tracks the connecting state across `NetworkChanged`, with
the library loaded. If wifi or cellular is connecting, the animation is running after the
call: when it was not animating it is reset and restarted and the icon is the first bars
image; when it was animating, animation and icon are left as they were, so a further
`NetworkChanged` in a connecting state changes neither. If neither is connecting, the
animation is stopped after the call. `AnimationProgressed` for this animation sets the
icon (and asks for a repaint) and nothing else; the icon is the one of the animation value
scaled to an integer and clamped into `0..100`. -/
theorem NetworkChanged_tracks_connecting_state (P : Platform) (cros : NetworkLibrary)
    (b : NetworkMenuButton) (hloaded : cros.EnsureLoaded = true) :
    ((cros.wifi_connecting || cros.cellular_connecting) = true →
        (NetworkChanged P cros b).animation_connecting_.IsAnimating = true
        ∧ (b.animation_connecting_.IsAnimating = false →
            (NetworkChanged P cros b).animation_connecting_
                = (b.animation_connecting_.Reset).StartThrobbing INT_MAX
            ∧ (NetworkChanged P cros b).icon_ = GetBitmapNamed P.IDR_STATUSBAR_NETWORK_BARS1)
        ∧ (b.animation_connecting_.IsAnimating = true →
            (NetworkChanged P cros b).animation_connecting_ = b.animation_connecting_
            ∧ (NetworkChanged P cros b).icon_ = b.icon_)
        ∧ (∀ cros2 : NetworkLibrary, cros2.EnsureLoaded = true →
            (cros2.wifi_connecting || cros2.cellular_connecting) = true →
            (NetworkChanged P cros2 (NetworkChanged P cros b)).animation_connecting_
                = (NetworkChanged P cros b).animation_connecting_
            ∧ (NetworkChanged P cros2 (NetworkChanged P cros b)).icon_
                = (NetworkChanged P cros b).icon_))
    ∧ ((cros.wifi_connecting || cros.cellular_connecting) = false →
        (NetworkChanged P cros b).animation_connecting_.IsAnimating = false)
    ∧ (∀ inherited : NetworkMenuButton → NetworkMenuButton,
        ∃ value : Int, 0 ≤ value ∧ value ≤ 100
          ∧ value = max 0 (min 100 (P.timesHundredToInt b.animation_connecting_.GetCurrentValue))
          ∧ AnimationProgressed P inherited AnimationRef.animation_connecting b
              = { b with icon_ := IconForNetworkStrength P value false,
                         scheduled_paints := b.scheduled_paints + 1 }) := by
  have hrun : (cros.wifi_connecting || cros.cellular_connecting) = true →
      (NetworkChanged P cros b).animation_connecting_.IsAnimating = true := by
    intro hc
    cases ha : b.animation_connecting_.animating <;>
      simp [NetworkChanged, hloaded, hc, ha, SetIcon, SchedulePaint,
        ThrobAnimation.IsAnimating, ThrobAnimation.Reset, ThrobAnimation.StartThrobbing]
  refine ⟨fun hc => ⟨hrun hc, ?_, ?_, ?_⟩, ?_, ?_⟩
  · intro ha
    simp only [ThrobAnimation.IsAnimating] at ha
    simp [NetworkChanged, hloaded, hc, ha, SetIcon, SchedulePaint,
      ThrobAnimation.IsAnimating]
  · intro ha
    simp only [ThrobAnimation.IsAnimating] at ha
    simp [NetworkChanged, hloaded, hc, ha, SetIcon, SchedulePaint,
      ThrobAnimation.IsAnimating]
  · intro cros2 hl2 hc2
    have ha := hrun hc
    simp only [ThrobAnimation.IsAnimating] at ha
    generalize NetworkChanged P cros b = b1 at ha ⊢
    simp [NetworkChanged, hl2, hc2, ha, SetIcon, SchedulePaint,
      ThrobAnimation.IsAnimating]
  · intro hc
    cases he : cros.ethernet_connected <;> cases hw : cros.wifi_connected <;>
      cases hcell : cros.cellular_connected <;>
      simp [NetworkChanged, hloaded, hc, he, hw, hcell, SetIcon, SchedulePaint,
        ThrobAnimation.IsAnimating, ThrobAnimation.Stop]
  · intro inherited
    refine ⟨max 0 (min 100 (P.timesHundredToInt b.animation_connecting_.GetCurrentValue)),
      by omega, by omega, rfl, ?_⟩
    simp only [AnimationProgressed, if_true, SetIcon, SchedulePaint]
    congr 2
    split_ifs <;> omega

/-- Witness for C8: on the sample state wifi is connecting and the animation is idle, so
`NetworkChanged` starts it and shows the first bars image; once connected it is stopped. -/
theorem NetworkChanged_tracks_connecting_state_witness :
    (NetworkChanged samplePlatform sampleCros sampleButton).animation_connecting_.IsAnimating
        = true
    ∧ (NetworkChanged samplePlatform sampleCros sampleButton).icon_
        = GetBitmapNamed samplePlatform.IDR_STATUSBAR_NETWORK_BARS1
    ∧ (NetworkChanged samplePlatform sampleCrosConnected
          (NetworkChanged samplePlatform sampleCros sampleButton)).animation_connecting_.IsAnimating
        = false :=
  ⟨((NetworkChanged_tracks_connecting_state samplePlatform sampleCros sampleButton
      (by decide)).1 (by decide)).1,
   (((NetworkChanged_tracks_connecting_state samplePlatform sampleCros sampleButton
      (by decide)).1 (by decide)).2.1 (by decide)).2,
   (NetworkChanged_tracks_connecting_state samplePlatform sampleCrosConnected
      (NetworkChanged samplePlatform sampleCros sampleButton) (by decide)).2.1 (by decide)⟩
